import Mathlib

/-!
# rviz `PluginlibFactory` (built-in class registry)

A shallow embedding of `src/rviz/builtin_pluginlib_factory.h`.

* `QString` is embedded as `String`; `+` on `QString` is `++`.
* `QHash<QString, V>` is embedded as a list of key/value entries.  `find`,
  `operator[]` followed by assignment, and iteration over the keys are the only
  operations the header uses.  The iteration order of a `QHash` is unspecified;
  the embedding fixes one order, and the theorems about the declared ids speak
  of membership, length and absence of duplicates only.
* `Type*` is embedded as `Option τ` (`none` is the null pointer).
* `Type* (*factory_function)()` is a C function without arguments that may
  allocate and have effects: it is embedded as a state-passing function
  `σ → Option τ × σ` over an arbitrary state `σ` of the rest of the program.
* `QString* error_return` is embedded in two ways.  In `makeRaw` it is an
  `Option String`: `none` is a null pointer, `some s` is a pointer to a string
  of the caller whose current value is `s` and which lies outside the state `σ`
  that the factory functions act on; the value after the call is part of the
  result.  In `makeRawCell` it is an `Option (StringCell σ)`: the string lies
  inside the program state, where the factory function called by `makeRaw` can
  read and write it like any other object.
-/

namespace rviz

/-! ## QHash -/

/-- Entries of a `QHash<QString, β>`. -/
abbrev QHash (β : Type) : Type := List (String × β)

namespace QHash

variable {β : Type}

/-- `QHash::find(key)`: the value stored under `key`, `none` standing for `end()`. -/
def find : QHash β → String → Option β
  | [], _ => none
  | (k, v) :: rest, key => if k = key then some v else find rest key

/-- `hash[key] = value`: replaces the value stored under `key`, or adds a new
entry when there is none. -/
def assign : QHash β → String → β → QHash β
  | [], key, value => [(key, value)]
  | (k, v) :: rest, key, value =>
      if k = key then (key, value) :: rest else (k, v) :: assign rest key value

/-- Keys visited by iterating from `begin()` to `end()`, each through `iter.key()`. -/
def keys (h : QHash β) : List String := h.map Prod.fst

end QHash

/-! ## The factory -/

/-- `struct BuiltInClassRecord`. -/
structure BuiltInClassRecord (τ σ : Type) where
  class_id_ : String
  package_ : String
  name_ : String
  description_ : String
  factory_function_ : σ → Option τ × σ

/-- `class PluginlibFactory<Type>`: its only data member is `built_ins_`. -/
structure PluginlibFactory (τ σ : Type) where
  built_ins_ : QHash (BuiltInClassRecord τ σ)

/-- What a call of `makeRaw` leaves behind: the returned pointer, the string
behind `error_return` (when the pointer is not null) and the program state. -/
structure MakeRawResult (τ σ : Type) where
  ret : Option τ
  error_return : Option String
  world : σ

/-- A `QString` object living in the program state `σ`, as a `QString*` sees it:
`read` is the value of `*p` and `write s` is the assignment `*p = s`. -/
structure StringCell (σ : Type) where
  read : σ → String
  write : String → σ → σ

namespace PluginlibFactory

variable {τ σ : Type}

/-- `PluginlibFactory(package, base_class_type)`: the body is empty, `built_ins_`
is default-constructed. -/
def new (_package _base_class_type : String) : PluginlibFactory τ σ :=
  { built_ins_ := [] }

/-- `getDeclaredClassIds()`. -/
def getDeclaredClassIds (self : PluginlibFactory τ σ) : List String :=
  QHash.keys self.built_ins_

/-- `getClassDescription(class_id)`. -/
def getClassDescription (self : PluginlibFactory τ σ) (class_id : String) : String :=
  match QHash.find self.built_ins_ class_id with
  | none => ""
  | some iter => iter.description_

/-- `getClassName(class_id)`. -/
def getClassName (self : PluginlibFactory τ σ) (class_id : String) : String :=
  match QHash.find self.built_ins_ class_id with
  | none => ""
  | some iter => iter.name_

/-- `getClassPackage(class_id)`. -/
def getClassPackage (self : PluginlibFactory τ σ) (class_id : String) : String :=
  match QHash.find self.built_ins_ class_id with
  | none => ""
  | some iter => iter.package_

/-- `getPluginManifestPath(class_id)`. -/
def getPluginManifestPath (self : PluginlibFactory τ σ) (class_id : String) : String :=
  match QHash.find self.built_ins_ class_id with
  | none => ""
  | some _ => ""

/-- `getIcon(class_id)`, over the resource loader `loadPixmap` of
`rviz/load_resource.h` and the null test `isNull` of the icon type. -/
def getIcon {ι : Type} (loadPixmap : String → ι) (isNull : ι → Bool)
    (self : PluginlibFactory τ σ) (class_id : String) : ι :=
  let package := self.getClassPackage class_id
  let class_name := self.getClassName class_id
  let icon := loadPixmap ("package://" ++ package ++ "/icons/classes/" ++ class_name ++ ".svg")
  if isNull icon then
    let icon := loadPixmap ("package://" ++ package ++ "/icons/classes/" ++ class_name ++ ".png")
    if isNull icon then
      loadPixmap "package://rviz/icons/default_class_icon.png"
    else icon
  else icon

/-- `addBuiltInClass(package, name, description, factory_function)`. -/
def addBuiltInClass (self : PluginlibFactory τ σ) (package name description : String)
    (factory_function : σ → Option τ × σ) : PluginlibFactory τ σ :=
  let record : BuiltInClassRecord τ σ :=
    { class_id_ := package ++ "/" ++ name
      package_ := package
      name_ := name
      description_ := description
      factory_function_ := factory_function }
  { built_ins_ := QHash.assign self.built_ins_ record.class_id_ record }

/-- `makeRaw(class_id, error_return)`, run in program state `w`, the string behind
`error_return` being an object of the caller that is not part of `w`: the factory
function called does not reach it. -/
def makeRaw (self : PluginlibFactory τ σ) (class_id : String)
    (error_return : Option String) (w : σ) : MakeRawResult τ σ :=
  match QHash.find self.built_ins_ class_id with
  | none => { ret := none, error_return := error_return, world := w }
  | some iter =>
    let called := iter.factory_function_ w
    if called.1.isNone && error_return.isSome then
      { ret := called.1
        error_return :=
          some ("Factory function for built-in class '" ++ class_id ++ "' returned NULL.")
        world := called.2 }
    else
      { ret := called.1, error_return := error_return, world := called.2 }

/-- `makeRaw(class_id, error_return)`, run in program state `w`, the string behind
`error_return` being an object of that state: the factory function called by
`iter->factory_function_()` runs before the test of `instance` and may have
changed it.  The result is the returned pointer and the state after the call. -/
def makeRawCell (self : PluginlibFactory τ σ) (class_id : String)
    (error_return : Option (StringCell σ)) (w : σ) : Option τ × σ :=
  match QHash.find self.built_ins_ class_id with
  | none => (none, w)
  | some iter =>
    let called := iter.factory_function_ w
    match called.1, error_return with
    | none, some cell =>
        (none,
          cell.write
            ("Factory function for built-in class '" ++ class_id ++ "' returned NULL.")
            called.2)
    | instance_, _ => (instance_, called.2)

end PluginlibFactory

/-! ## Sequences of registrations -/

/-- The arguments of one call of `addBuiltInClass`. -/
structure BuiltInCall (τ σ : Type) where
  package : String
  name : String
  description : String
  factory_function : σ → Option τ × σ

/-- The class id under which a call registers. -/
def BuiltInCall.class_id {τ σ : Type} (c : BuiltInCall τ σ) : String :=
  c.package ++ "/" ++ c.name

/-- The factory after the calls `calls` of `addBuiltInClass`, in order, on `self`. -/
def addBuiltInClasses {τ σ : Type} (self : PluginlibFactory τ σ)
    (calls : List (BuiltInCall τ σ)) : PluginlibFactory τ σ :=
  calls.foldl
    (fun s c => s.addBuiltInClass c.package c.name c.description c.factory_function) self

/-- Every entry of `built_ins_` is stored under the key `package_ + "/" + name_`
of its own record. -/
def KeyedByPackageName {τ σ : Type} (self : PluginlibFactory τ σ) : Prop :=
  ∀ e ∈ self.built_ins_, e.2.package_ ++ "/" ++ e.2.name_ = e.1

/-- The three-step fallback of `getIcon` as the specification words it: the
".svg" icon of the class if it is non-null, otherwise the ".png" icon of the
class if that is non-null, otherwise the default class icon. -/
def getIconSpec {τ σ ι : Type} (loadPixmap : String → ι) (isNull : ι → Bool)
    (self : PluginlibFactory τ σ) (class_id : String) : ι :=
  let package := self.getClassPackage class_id
  let name := self.getClassName class_id
  let svg := loadPixmap ("package://" ++ package ++ "/icons/classes/" ++ name ++ ".svg")
  let png := loadPixmap ("package://" ++ package ++ "/icons/classes/" ++ name ++ ".png")
  if isNull svg = false then svg
  else if isNull png = false then png
  else loadPixmap "package://rviz/icons/default_class_icon.png"

/-! ## Concrete data used in the examples -/

/-- A factory function that allocates nothing and returns the null pointer. -/
def nullFactory : Nat → Option Nat × Nat := fun w => (none, w + 1)

/-- A factory function that returns a fresh instance numbered by the state. -/
def gridFactory : Nat → Option Nat × Nat := fun w => (some w, w + 1)

/-- A program state made of one `QString` and a counter of instances. -/
abbrev ErrorAndCount : Type := String × Nat

/-- The `QString` of an `ErrorAndCount` state, as `error_return` points to it. -/
def errorCell : StringCell ErrorAndCount :=
  { read := fun w => w.1, write := fun s w => (s, w.2) }

/-- A factory function that returns a fresh instance and leaves the string of the
state alone. -/
def countingFactory : ErrorAndCount → Option Nat × ErrorAndCount :=
  fun w => (some w.2, (w.1, w.2 + 1))

/-- A factory function that returns a fresh instance and assigns "clobbered" to
the string of the state. -/
def clobberFactory : ErrorAndCount → Option Nat × ErrorAndCount :=
  fun w => (some w.2, ("clobbered", w.2 + 1))

/-- A factory with "rviz/Grid" registered with `countingFactory` and
"rviz/Clobber" registered with `clobberFactory`. -/
def cellFactory : PluginlibFactory Nat ErrorAndCount :=
  ((PluginlibFactory.new "rviz" "rviz::Display").addBuiltInClass
      "rviz" "Grid" "a grid" countingFactory).addBuiltInClass
    "rviz" "Clobber" "writes the error string" clobberFactory

/-- A fresh factory, as rviz constructs the display factory. -/
def freshFactory : PluginlibFactory Nat Nat :=
  PluginlibFactory.new "rviz" "rviz::Display"

/-- A resource loader that finds the default class icon only; `none` is the null
icon. -/
def defaultOnlyLoader : String → Option String := fun path =>
  if path = "package://rviz/icons/default_class_icon.png" then some path else none

/-- A plugin-loading mechanism of the kind the specification speaks of, able to
load the class "rviz/Grid" from a plugin.  The header has no such component; this
one only serves to compare `makeRaw` with. -/
def gridPluginLoader : String → Nat → Option Nat × Nat := fun class_id w =>
  if class_id = "rviz/Grid" then (some w, w + 1) else (none, w)

open PluginlibFactory

/-! ## Lemmas on QHash -/

theorem QHash.find_assign_self {β : Type} (h : QHash β) (key : String) (value : β) :
    QHash.find (QHash.assign h key value) key = some value := by
  induction h with
  | nil => simp [QHash.assign, QHash.find]
  | cons e rest ih =>
    obtain ⟨k, v⟩ := e
    by_cases hk : k = key
    · simp [QHash.assign, QHash.find, hk]
    · simp [QHash.assign, QHash.find, hk, ih]

theorem QHash.find_eq_none_iff {β : Type} (h : QHash β) (key : String) :
    QHash.find h key = none ↔ key ∉ QHash.keys h := by
  induction h with
  | nil => simp [QHash.find, QHash.keys]
  | cons e rest ih =>
    obtain ⟨k, v⟩ := e
    by_cases hk : k = key
    · simp [QHash.find, QHash.keys, hk]
    · have hk' : ¬ key = k := fun h => hk h.symm
      simpa [QHash.find, QHash.keys, hk, hk'] using ih

theorem QHash.find_some_mem {β : Type} (h : QHash β) (key : String) (value : β)
    (hf : QHash.find h key = some value) : (key, value) ∈ h := by
  induction h with
  | nil => simp [QHash.find] at hf
  | cons e rest ih =>
    obtain ⟨k, v⟩ := e
    by_cases hk : k = key
    · simp [QHash.find, hk] at hf
      simp [hk, hf]
    · simp [QHash.find, hk] at hf
      exact List.mem_cons_of_mem _ (ih hf)

theorem QHash.mem_assign {β : Type} (h : QHash β) (key : String) (value : β)
    (e : String × β) (he : e ∈ QHash.assign h key value) :
    e = (key, value) ∨ e ∈ h := by
  induction h with
  | nil => simpa [QHash.assign] using he
  | cons e' rest ih =>
    obtain ⟨k, v⟩ := e'
    by_cases hk : k = key
    · simp only [QHash.assign, hk, if_true, List.mem_cons] at he
      rcases he with he | he
      · exact Or.inl he
      · exact Or.inr (List.mem_cons_of_mem _ he)
    · simp only [QHash.assign, hk, if_false, List.mem_cons] at he
      rcases he with he | he
      · exact Or.inr (by simp [he])
      · rcases ih he with h1 | h1
        · exact Or.inl h1
        · exact Or.inr (List.mem_cons_of_mem _ h1)

theorem QHash.keys_assign {β : Type} (h : QHash β) (key : String) (value : β) :
    QHash.keys (QHash.assign h key value)
      = if key ∈ QHash.keys h then QHash.keys h else QHash.keys h ++ [key] := by
  induction h with
  | nil => simp [QHash.assign, QHash.keys]
  | cons e rest ih =>
    obtain ⟨k, v⟩ := e
    by_cases hk : k = key
    · simp [QHash.assign, QHash.keys, hk]
    · have hk' : ¬ key = k := fun h => hk h.symm
      simp only [QHash.keys] at ih
      simp only [QHash.assign, QHash.keys, hk, hk', if_false, List.map_cons, ih,
        List.mem_cons, false_or]
      split <;> simp

theorem QHash.mem_keys_assign {β : Type} (h : QHash β) (key : String) (value : β)
    (id : String) :
    id ∈ QHash.keys (QHash.assign h key value) ↔ id = key ∨ id ∈ QHash.keys h := by
  rw [QHash.keys_assign]
  split
  · constructor
    · exact Or.inr
    · rintro (h1 | h1)
      · subst h1; assumption
      · exact h1
  · simp [or_comm]

theorem QHash.nodup_keys_assign {β : Type} (h : QHash β) (key : String) (value : β)
    (hn : (QHash.keys h).Nodup) : (QHash.keys (QHash.assign h key value)).Nodup := by
  rw [QHash.keys_assign]
  split
  · exact hn
  · rename_i hmem
    rw [List.nodup_append]
    refine ⟨hn, List.nodup_singleton _, ?_⟩
    intro a ha hb
    simp only [List.mem_singleton] at hb
    exact hmem (hb ▸ ha)

theorem QHash.assign_assign {β : Type} (h : QHash β) (key : String) (v1 v2 : β) :
    QHash.assign (QHash.assign h key v1) key v2 = QHash.assign h key v2 := by
  induction h with
  | nil => simp [QHash.assign]
  | cons e rest ih =>
    obtain ⟨k, v⟩ := e
    by_cases hk : k = key
    · simp [QHash.assign, hk]
    · simp [QHash.assign, hk, ih]

/-! ## Lemmas on sequences of registrations -/

theorem addBuiltInClasses_cons {τ σ : Type} (self : PluginlibFactory τ σ)
    (c : BuiltInCall τ σ) (calls : List (BuiltInCall τ σ)) :
    addBuiltInClasses self (c :: calls)
      = addBuiltInClasses
          (self.addBuiltInClass c.package c.name c.description c.factory_function) calls :=
  rfl

theorem keyedByPackageName_addBuiltInClass {τ σ : Type} (self : PluginlibFactory τ σ)
    (package name description : String) (f : σ → Option τ × σ)
    (hinv : KeyedByPackageName self) :
    KeyedByPackageName (self.addBuiltInClass package name description f) := by
  intro e he
  rcases QHash.mem_assign _ _ _ _ he with h1 | h1
  · rw [h1]
  · exact hinv e h1

theorem keyedByPackageName_addBuiltInClasses {τ σ : Type}
    (calls : List (BuiltInCall τ σ)) (self : PluginlibFactory τ σ)
    (hinv : KeyedByPackageName self) :
    KeyedByPackageName (addBuiltInClasses self calls) := by
  induction calls generalizing self with
  | nil => exact hinv
  | cons c rest ih =>
    rw [addBuiltInClasses_cons]
    exact ih _ (keyedByPackageName_addBuiltInClass self _ _ _ _ hinv)

theorem mem_getDeclaredClassIds_addBuiltInClasses {τ σ : Type}
    (calls : List (BuiltInCall τ σ)) (self : PluginlibFactory τ σ) (id : String) :
    id ∈ (addBuiltInClasses self calls).getDeclaredClassIds
      ↔ id ∈ self.getDeclaredClassIds ∨ ∃ c ∈ calls, c.class_id = id := by
  induction calls generalizing self with
  | nil => simp [addBuiltInClasses]
  | cons c rest ih =>
    rw [addBuiltInClasses_cons, ih]
    simp only [getDeclaredClassIds, addBuiltInClass, QHash.mem_keys_assign,
      List.mem_cons, exists_eq_or_imp, BuiltInCall.class_id]
    constructor
    · rintro ((h1 | h1) | h1)
      · exact Or.inr (Or.inl h1.symm)
      · exact Or.inl h1
      · exact Or.inr (Or.inr h1)
    · rintro (h1 | h1 | h1)
      · exact Or.inl (Or.inr h1)
      · exact Or.inl (Or.inl h1.symm)
      · exact Or.inr h1

theorem nodup_getDeclaredClassIds_addBuiltInClasses {τ σ : Type}
    (calls : List (BuiltInCall τ σ)) (self : PluginlibFactory τ σ)
    (hn : self.getDeclaredClassIds.Nodup) :
    (addBuiltInClasses self calls).getDeclaredClassIds.Nodup := by
  induction calls generalizing self with
  | nil => exact hn
  | cons c rest ih =>
    rw [addBuiltInClasses_cons]
    exact ih _ (QHash.nodup_keys_assign _ _ _ hn)

/-! ## makeRaw -/

/-- C1 (evaluation at the failing input): on a fresh factory, `makeRaw` of the
unregistered class id "rviz/Grid" with a non-null `error_return` pointing to the
string "untouched" returns the null pointer and leaves the string as it was: no
description of the problem is written. -/
theorem makeRaw_unregistered_leaves_error_return :
    (freshFactory.makeRaw "rviz/Grid" (some "untouched") 0).ret = none ∧
    (freshFactory.makeRaw "rviz/Grid" (some "untouched") 0).error_return
      = some "untouched" := by
  constructor <;> rfl

/-- The two embeddings of `makeRaw` return the same pointer, and leave the same
program state whenever `makeRaw` writes nothing (a non-null instance, or a null
`error_return`). -/
theorem makeRawCell_eq_makeRaw {τ σ : Type} (self : PluginlibFactory τ σ)
    (class_id : String) (error_return : Option (StringCell σ)) (w : σ) :
    (self.makeRawCell class_id error_return w).1
        = (self.makeRaw class_id (error_return.map fun cell => cell.read w) w).ret ∧
    ((self.makeRawCell class_id error_return w).1 ≠ none ∨ error_return = none →
      (self.makeRawCell class_id error_return w).2
        = (self.makeRaw class_id (error_return.map fun cell => cell.read w) w).world) := by
  unfold makeRawCell makeRaw
  cases hf : QHash.find self.built_ins_ class_id with
  | none => simp
  | some iter =>
    cases hc : (iter.factory_function_ w).1 with
    | none => cases error_return <;> simp [hc]
    | some inst => cases error_return <;> simp [hc]

/-- C2 (counterexample): "rviz/Clobber" is registered with a factory function
that assigns "clobbered" to the string `error_return` points to and returns a
non-null instance; `makeRaw` succeeds and the string, "untouched" before the
call, is "clobbered" after it. -/
theorem makeRawCell_success_callee_overwrites :
    (cellFactory.makeRawCell "rviz/Clobber" (some errorCell) ("untouched", 1)).1 = some 1 ∧
    errorCell.read ("untouched", 1) = "untouched" ∧
    errorCell.read
        (cellFactory.makeRawCell "rviz/Clobber" (some errorCell) ("untouched", 1)).2
      = "clobbered" ∧
    errorCell.read
        (cellFactory.makeRawCell "rviz/Clobber" (some errorCell) ("untouched", 1)).2
      ≠ errorCell.read ("untouched", 1) := by
  refine ⟨by decide, rfl, by decide, by decide⟩

/-- C2 (amended): when `makeRaw` succeeds (returns a non-null instance) and the
factory function it called left the string behind a non-null `error_return` as it
was, that string is the same after the call as before: `makeRaw` itself does not
write to it on success. -/
theorem makeRawCell_success_keeps_error_return {τ σ : Type} (self : PluginlibFactory τ σ)
    (class_id : String) (cell : StringCell σ) (w : σ)
    (hok : (self.makeRawCell class_id (some cell) w).1 ≠ none)
    (hsep : ∀ iter : BuiltInClassRecord τ σ,
      QHash.find self.built_ins_ class_id = some iter →
        cell.read (iter.factory_function_ w).2 = cell.read w) :
    cell.read (self.makeRawCell class_id (some cell) w).2 = cell.read w := by
  unfold makeRawCell at hok ⊢
  cases hf : QHash.find self.built_ins_ class_id with
  | none => simp [hf]
  | some iter =>
    have hkeep := hsep iter hf
    simp only [hf] at hok ⊢
    cases hc : (iter.factory_function_ w).1 with
    | none => simp [hc] at hok
    | some inst => simpa [hc] using hkeep

/-- Witness of C2 (amended): "rviz/Grid", registered with `countingFactory`, called
with the string at "untouched". -/
theorem makeRawCell_success_keeps_error_return_witness :
    (cellFactory.makeRawCell "rviz/Grid" (some errorCell) ("untouched", 5)).1 = some 5 ∧
    errorCell.read
        (cellFactory.makeRawCell "rviz/Grid" (some errorCell) ("untouched", 5)).2
      = "untouched" :=
  ⟨by decide,
   makeRawCell_success_keeps_error_return cellFactory "rviz/Grid" errorCell
     ("untouched", 5) (by decide)
     (by
       intro iter hfind
       have hrec : QHash.find cellFactory.built_ins_ "rviz/Grid"
           = some { class_id_ := "rviz/Grid", package_ := "rviz", name_ := "Grid",
                    description_ := "a grid", factory_function_ := countingFactory } := rfl
       rw [hrec] at hfind
       cases hfind
       rfl)⟩

/-- C3: after `addBuiltInClass(package, name, description, f)`, `makeRaw` of
`package + "/" + name` returns exactly what calling `f` produces: the returned
pointer is the one `f` returns and the program state is the one `f` leaves, for
every `error_return` (null or not) and every state the call is made in. -/
theorem makeRaw_addBuiltInClass {τ σ : Type} (self : PluginlibFactory τ σ)
    (package name description : String) (f : σ → Option τ × σ)
    (error_return : Option String) (w : σ) :
    ((self.addBuiltInClass package name description f).makeRaw
        (package ++ "/" ++ name) error_return w).ret = (f w).1 ∧
    ((self.addBuiltInClass package name description f).makeRaw
        (package ++ "/" ++ name) error_return w).world = (f w).2 := by
  simp only [makeRaw, addBuiltInClass, QHash.find_assign_self]
  constructor <;> split <;> rfl

/-- C4 (counterexample): "rviz/Grid" is not registered in a fresh factory and a
plugin loader would load it, yet `makeRaw` returns the null pointer. -/
theorem makeRaw_does_not_delegate :
    QHash.find freshFactory.built_ins_ "rviz/Grid" = none ∧
    (gridPluginLoader "rviz/Grid" 0).1 = some 0 ∧
    (freshFactory.makeRaw "rviz/Grid" (some "") 0).ret = none ∧
    (freshFactory.makeRaw "rviz/Grid" (some "") 0).ret ≠ (gridPluginLoader "rviz/Grid" 0).1 := by
  refine ⟨rfl, rfl, rfl, ?_⟩
  decide

/-- C4 (amended): for a class id that is not among the declared (built-in) class
ids, `makeRaw` returns the null pointer and leaves the program state as it was:
nothing is loaded or called, the factory serves built-in classes only. -/
theorem makeRaw_unregistered_returns_null {τ σ : Type} (self : PluginlibFactory τ σ)
    (class_id : String) (error_return : Option String) (w : σ)
    (hnot : class_id ∉ self.getDeclaredClassIds) :
    (self.makeRaw class_id error_return w).ret = none ∧
    (self.makeRaw class_id error_return w).world = w := by
  have hf : QHash.find self.built_ins_ class_id = none :=
    (QHash.find_eq_none_iff _ _).2 hnot
  simp [makeRaw, hf]

/-- Witness of C4 (amended): "rviz/Axes" with only "rviz/Grid" registered. -/
theorem makeRaw_unregistered_returns_null_witness :
    "rviz/Axes" ∉ (freshFactory.addBuiltInClass "rviz" "Grid" "a grid"
        gridFactory).getDeclaredClassIds ∧
    ((freshFactory.addBuiltInClass "rviz" "Grid" "a grid" gridFactory).makeRaw
        "rviz/Axes" (some "") 3).ret = none ∧
    ((freshFactory.addBuiltInClass "rviz" "Grid" "a grid" gridFactory).makeRaw
        "rviz/Axes" (some "") 3).world = 3 :=
  ⟨by decide,
   makeRaw_unregistered_returns_null
     (freshFactory.addBuiltInClass "rviz" "Grid" "a grid" gridFactory)
     "rviz/Axes" (some "") 3 (by decide)⟩

/-- C6: right after `addBuiltInClass(package, name, description, f)` the getters
at `package + "/" + name` return the registered package, name and description. -/
theorem getters_addBuiltInClass {τ σ : Type} (self : PluginlibFactory τ σ)
    (package name description : String) (f : σ → Option τ × σ) :
    (self.addBuiltInClass package name description f).getClassPackage
        (package ++ "/" ++ name) = package ∧
    (self.addBuiltInClass package name description f).getClassName
        (package ++ "/" ++ name) = name ∧
    (self.addBuiltInClass package name description f).getClassDescription
        (package ++ "/" ++ name) = description := by
  simp [getClassPackage, getClassName, getClassDescription, addBuiltInClass,
    QHash.find_assign_self]

/-! ## Declared class ids -/

/-- C7: in every state reached from a freshly constructed factory by a sequence
of `addBuiltInClass` calls, every declared class id is the package and the name
of its own record joined by "/". -/
theorem declared_id_is_package_slash_name {τ σ : Type} (package base_class_type : String)
    (calls : List (BuiltInCall τ σ)) (id : String)
    (hid : id ∈ (addBuiltInClasses (new package base_class_type) calls).getDeclaredClassIds) :
    (addBuiltInClasses (new package base_class_type) calls).getClassPackage id ++ "/" ++
      (addBuiltInClasses (new package base_class_type) calls).getClassName id = id := by
  have hinv : KeyedByPackageName (addBuiltInClasses (new package base_class_type) calls) :=
    keyedByPackageName_addBuiltInClasses calls _ (by intro e he; simp [new] at he)
  simp only [getClassPackage, getClassName]
  cases hf : QHash.find (addBuiltInClasses (new package base_class_type) calls).built_ins_ id with
  | none => exact absurd hid ((QHash.find_eq_none_iff _ _).1 hf)
  | some iter => exact hinv _ (QHash.find_some_mem _ _ _ hf)

/-- Witness of C7: "rviz/Grid" after registering "rviz/Grid" and "rviz/Null". -/
theorem declared_id_is_package_slash_name_witness :
    (addBuiltInClasses (new "rviz" "rviz::Display")
        [⟨"rviz", "Grid", "a grid", gridFactory⟩,
         ⟨"rviz", "Null", "nothing", nullFactory⟩]).getClassPackage "rviz/Grid" ++ "/" ++
      (addBuiltInClasses (new "rviz" "rviz::Display")
        [⟨"rviz", "Grid", "a grid", gridFactory⟩,
         ⟨"rviz", "Null", "nothing", nullFactory⟩]).getClassName "rviz/Grid" = "rviz/Grid" :=
  declared_id_is_package_slash_name "rviz" "rviz::Display"
    [⟨"rviz", "Grid", "a grid", gridFactory⟩, ⟨"rviz", "Null", "nothing", nullFactory⟩]
    "rviz/Grid" (by decide)

/-- C9: `getDeclaredClassIds()` is empty on a freshly constructed factory, whatever
the constructor arguments; after any sequence of `addBuiltInClass` calls it holds
`package + "/" + name` of every call made and nothing else, holds no id twice, and
an id is in it exactly when the lookup of `makeRaw` finds a record, whose factory
function `makeRaw` then calls. -/
theorem getDeclaredClassIds_exact {τ σ : Type} (package base_class_type : String)
    (calls : List (BuiltInCall τ σ)) :
    (new package base_class_type : PluginlibFactory τ σ).getDeclaredClassIds = [] ∧
    (∀ id : String,
      id ∈ (addBuiltInClasses (new package base_class_type) calls).getDeclaredClassIds
        ↔ ∃ c ∈ calls, c.package ++ "/" ++ c.name = id) ∧
    (addBuiltInClasses (new package base_class_type) calls).getDeclaredClassIds.Nodup ∧
    (∀ id : String,
      id ∈ (addBuiltInClasses (new package base_class_type) calls).getDeclaredClassIds
        ↔ ∃ iter : BuiltInClassRecord τ σ,
            QHash.find (addBuiltInClasses (new package base_class_type) calls).built_ins_ id
              = some iter ∧
            ∀ (error_return : Option String) (w : σ),
              ((addBuiltInClasses (new package base_class_type) calls).makeRaw
                  id error_return w).ret = (iter.factory_function_ w).1 ∧
              ((addBuiltInClasses (new package base_class_type) calls).makeRaw
                  id error_return w).world = (iter.factory_function_ w).2) := by
  refine ⟨rfl, ?_, ?_, ?_⟩
  · intro id
    rw [mem_getDeclaredClassIds_addBuiltInClasses]
    simp [new, getDeclaredClassIds, QHash.keys, BuiltInCall.class_id]
  · exact nodup_getDeclaredClassIds_addBuiltInClasses calls _ (by
      simp [new, getDeclaredClassIds, QHash.keys])
  · intro id
    constructor
    · intro hid
      cases hf : QHash.find
          (addBuiltInClasses (new package base_class_type) calls).built_ins_ id with
      | none => exact absurd hid ((QHash.find_eq_none_iff _ _).1 hf)
      | some iter =>
        refine ⟨iter, rfl, ?_⟩
        intro error_return w
        simp only [makeRaw, hf]
        constructor <;> split <;> rfl
    · rintro ⟨iter, hf, -⟩
      by_contra hnot
      have hnone := (QHash.find_eq_none_iff _ _).2 hnot
      rw [hf] at hnone
      exact Option.noConfusion hnone

/-! ## Registering twice under one class id -/

/-- C10: registering `(p, n, d2, f2)` after `(p, n, d1, f1)` leaves the factory
that registering `(p, n, d2, f2)` alone leaves: the same table, hence the same
answers of every getter and of `makeRaw` at every class id and the same declared
ids; at `p + "/" + n` the description is `d2` and `makeRaw` calls `f2`; and the
number of declared ids is the same.  In particular a registration made twice is
the registration made once. -/
theorem addBuiltInClass_last_wins {τ σ : Type} (self : PluginlibFactory τ σ)
    (p n d1 d2 : String) (f1 f2 : σ → Option τ × σ) :
    (self.addBuiltInClass p n d1 f1).addBuiltInClass p n d2 f2
        = self.addBuiltInClass p n d2 f2 ∧
    (∀ class_id : String,
      ((self.addBuiltInClass p n d1 f1).addBuiltInClass p n d2 f2).getClassDescription class_id
          = (self.addBuiltInClass p n d2 f2).getClassDescription class_id ∧
      ((self.addBuiltInClass p n d1 f1).addBuiltInClass p n d2 f2).getClassName class_id
          = (self.addBuiltInClass p n d2 f2).getClassName class_id ∧
      ((self.addBuiltInClass p n d1 f1).addBuiltInClass p n d2 f2).getClassPackage class_id
          = (self.addBuiltInClass p n d2 f2).getClassPackage class_id ∧
      (class_id ∈ ((self.addBuiltInClass p n d1 f1).addBuiltInClass p n d2 f2).getDeclaredClassIds
          ↔ class_id ∈ (self.addBuiltInClass p n d2 f2).getDeclaredClassIds) ∧
      ∀ (error_return : Option String) (w : σ),
        ((self.addBuiltInClass p n d1 f1).addBuiltInClass p n d2 f2).makeRaw
            class_id error_return w
          = (self.addBuiltInClass p n d2 f2).makeRaw class_id error_return w) ∧
    ((self.addBuiltInClass p n d1 f1).addBuiltInClass p n d2 f2).getClassDescription
        (p ++ "/" ++ n) = d2 ∧
    (∀ (error_return : Option String) (w : σ),
      (((self.addBuiltInClass p n d1 f1).addBuiltInClass p n d2 f2).makeRaw
          (p ++ "/" ++ n) error_return w).ret = (f2 w).1 ∧
      (((self.addBuiltInClass p n d1 f1).addBuiltInClass p n d2 f2).makeRaw
          (p ++ "/" ++ n) error_return w).world = (f2 w).2) ∧
    ((self.addBuiltInClass p n d1 f1).addBuiltInClass p n d2 f2).getDeclaredClassIds.length
        = (self.addBuiltInClass p n d2 f2).getDeclaredClassIds.length ∧
    (self.addBuiltInClass p n d1 f1).getDeclaredClassIds.length
        = (self.addBuiltInClass p n d2 f2).getDeclaredClassIds.length ∧
    (self.addBuiltInClass p n d1 f1).addBuiltInClass p n d1 f1
        = self.addBuiltInClass p n d1 f1 := by
  have key : ∀ (da db : String) (fa fb : σ → Option τ × σ),
      (self.addBuiltInClass p n da fa).addBuiltInClass p n db fb
        = self.addBuiltInClass p n db fb := by
    intro da db fa fb
    simp [addBuiltInClass, QHash.assign_assign]
  refine ⟨key _ _ _ _, ?_, ?_, ?_, ?_, ?_, key _ _ _ _⟩
  · intro class_id
    rw [key]
    exact ⟨rfl, rfl, rfl, Iff.rfl, fun _ _ => rfl⟩
  · rw [key]
    simp [getClassDescription, addBuiltInClass, QHash.find_assign_self]
  · intro error_return w
    rw [key]
    simp only [makeRaw, addBuiltInClass, QHash.find_assign_self]
    constructor <;> split <;> rfl
  · rw [key]
  · simp only [getDeclaredClassIds, addBuiltInClass, QHash.keys_assign]

/-! ## Icons -/

/-- C8: `getIcon` is the three-step fallback over `loadPixmap`: the ".svg" icon
of the class when non-null, otherwise the ".png" icon of the class when non-null,
otherwise the default class icon; and whenever the default icon loads as non-null,
`getIcon` returns a non-null icon for every class id, registered or not. -/
theorem getIcon_fallback {τ σ ι : Type} (loadPixmap : String → ι) (isNull : ι → Bool)
    (self : PluginlibFactory τ σ) (class_id : String) :
    getIcon loadPixmap isNull self class_id = getIconSpec loadPixmap isNull self class_id ∧
    (isNull (loadPixmap "package://rviz/icons/default_class_icon.png") = false →
      isNull (getIcon loadPixmap isNull self class_id) = false) := by
  constructor
  · simp only [getIcon, getIconSpec]
    split <;> split <;> simp_all
  · intro hdef
    simp only [getIcon]
    split
    · split
      · exact hdef
      · simp_all
    · simp_all

/-- Witness of C8: a loader that finds the default icon only, at an unregistered
class id of a fresh factory. -/
theorem getIcon_fallback_witness :
    getIcon defaultOnlyLoader Option.isNone freshFactory "rviz/Grid"
      = some "package://rviz/icons/default_class_icon.png" ∧
    Option.isNone (getIcon defaultOnlyLoader Option.isNone freshFactory "rviz/Grid") = false :=
  ⟨by decide,
   (getIcon_fallback defaultOnlyLoader Option.isNone freshFactory "rviz/Grid").2 (by decide)⟩

/-! ## Class ids other than the one registered -/

theorem QHash.find_assign_ne {β : Type} (h : QHash β) (key other : String) (value : β)
    (hne : other ≠ key) :
    QHash.find (QHash.assign h key value) other = QHash.find h other := by
  have hne' : ¬ key = other := fun h => hne h.symm
  induction h with
  | nil => simp [QHash.assign, QHash.find, hne']
  | cons e rest ih =>
    obtain ⟨k, v⟩ := e
    by_cases hk : k = key
    · have hko : ¬ k = other := fun h => hne' (hk ▸ h)
      simp [QHash.assign, QHash.find, hk, hne', hko]
    · by_cases hko : k = other
      · subst hko
        simp [QHash.assign, QHash.find, hne]
      · simp [QHash.assign, QHash.find, hk, hko, ih]

/-- C11: `addBuiltInClass(package, name, description, f)` touches the entry of
`package + "/" + name` only: at every other class id `c` the package, the name,
the description, the membership among the declared class ids and the whole
result of `makeRaw` (returned pointer, string behind `error_return`, program
state) are what they were before the call. -/
theorem addBuiltInClass_frame {τ σ : Type} (self : PluginlibFactory τ σ)
    (package name description : String) (f : σ → Option τ × σ) (c : String)
    (hc : c ≠ package ++ "/" ++ name) :
    (self.addBuiltInClass package name description f).getClassPackage c
        = self.getClassPackage c ∧
    (self.addBuiltInClass package name description f).getClassName c
        = self.getClassName c ∧
    (self.addBuiltInClass package name description f).getClassDescription c
        = self.getClassDescription c ∧
    (c ∈ (self.addBuiltInClass package name description f).getDeclaredClassIds
        ↔ c ∈ self.getDeclaredClassIds) ∧
    ∀ (error_return : Option String) (w : σ),
      (self.addBuiltInClass package name description f).makeRaw c error_return w
        = self.makeRaw c error_return w := by
  have hf : QHash.find (self.addBuiltInClass package name description f).built_ins_ c
      = QHash.find self.built_ins_ c := by
    simp only [addBuiltInClass]
    exact QHash.find_assign_ne _ _ _ _ hc
  refine ⟨?_, ?_, ?_, ?_, ?_⟩
  · simp only [getClassPackage, hf]
  · simp only [getClassName, hf]
  · simp only [getClassDescription, hf]
  · simp only [getDeclaredClassIds, addBuiltInClass, QHash.mem_keys_assign]
    constructor
    · rintro (h1 | h1)
      · exact absurd h1 hc
      · exact h1
    · exact Or.inr
  · intro error_return w
    simp only [makeRaw, hf]

/-- Witness of C11: "rviz/Grid" is registered, then "rviz/Null" is; the answers
at "rviz/Grid" stay. -/
theorem addBuiltInClass_frame_witness :
    ((freshFactory.addBuiltInClass "rviz" "Grid" "a grid" gridFactory).addBuiltInClass
        "rviz" "Null" "nothing" nullFactory).getClassDescription "rviz/Grid" = "a grid" ∧
    ((freshFactory.addBuiltInClass "rviz" "Grid" "a grid" gridFactory).addBuiltInClass
        "rviz" "Null" "nothing" nullFactory).getClassDescription "rviz/Grid"
      = (freshFactory.addBuiltInClass "rviz" "Grid" "a grid"
          gridFactory).getClassDescription "rviz/Grid" :=
  ⟨by decide,
   (addBuiltInClass_frame (freshFactory.addBuiltInClass "rviz" "Grid" "a grid" gridFactory)
      "rviz" "Null" "nothing" nullFactory "rviz/Grid" (by decide)).2.2.1⟩

/-! ## Lookups of unregistered class ids -/

/-- C13: at a class id that is not a declared class id, `getClassDescription`,
`getClassName` and `getClassPackage` each return the empty string, and `makeRaw`
returns the null pointer and leaves the program state as it was, whatever the
registered factory functions are: none of them is called. -/
theorem unregistered_lookups_are_empty {τ σ : Type} (self : PluginlibFactory τ σ)
    (class_id : String) (hnot : class_id ∉ self.getDeclaredClassIds) :
    self.getClassDescription class_id = "" ∧
    self.getClassName class_id = "" ∧
    self.getClassPackage class_id = "" ∧
    ∀ (error_return : Option String) (w : σ),
      (self.makeRaw class_id error_return w).ret = none ∧
      (self.makeRaw class_id error_return w).world = w := by
  have hf : QHash.find self.built_ins_ class_id = none :=
    (QHash.find_eq_none_iff _ _).2 hnot
  refine ⟨?_, ?_, ?_, ?_⟩
  · simp only [getClassDescription, hf]
  · simp only [getClassName, hf]
  · simp only [getClassPackage, hf]
  · intro error_return w
    simp only [makeRaw, hf, and_self]

/-- Witness of C13: "rviz/Axes" with "rviz/Grid" and "rviz/Null" registered. -/
theorem unregistered_lookups_are_empty_witness :
    "rviz/Axes" ∉ (addBuiltInClasses freshFactory
        [⟨"rviz", "Grid", "a grid", gridFactory⟩,
         ⟨"rviz", "Null", "nothing", nullFactory⟩]).getDeclaredClassIds ∧
    (addBuiltInClasses freshFactory
        [⟨"rviz", "Grid", "a grid", gridFactory⟩,
         ⟨"rviz", "Null", "nothing", nullFactory⟩]).getClassName "rviz/Axes" = "" ∧
    ((addBuiltInClasses freshFactory
        [⟨"rviz", "Grid", "a grid", gridFactory⟩,
         ⟨"rviz", "Null", "nothing", nullFactory⟩]).makeRaw "rviz/Axes" none 7).world = 7 :=
  ⟨by decide,
   (unregistered_lookups_are_empty
      (addBuiltInClasses freshFactory
        [⟨"rviz", "Grid", "a grid", gridFactory⟩, ⟨"rviz", "Null", "nothing", nullFactory⟩])
      "rviz/Axes" (by decide)).2.1,
   ((unregistered_lookups_are_empty
      (addBuiltInClasses freshFactory
        [⟨"rviz", "Grid", "a grid", gridFactory⟩, ⟨"rviz", "Null", "nothing", nullFactory⟩])
      "rviz/Axes" (by decide)).2.2.2 none 7).2⟩

/-! ## Class ids and (package, name) pairs -/

theorem append_cons_inj_of_not_mem {α : Type} (c : α) (l1 l2 r1 r2 : List α)
    (h1 : c ∉ r1) (h2 : c ∉ r2) (heq : l1 ++ c :: r1 = l2 ++ c :: r2) :
    l1 = l2 ∧ r1 = r2 := by
  induction l1 generalizing l2 with
  | nil =>
    cases l2 with
    | nil => simpa using heq
    | cons y l2 =>
      simp only [List.nil_append, List.cons_append, List.cons.injEq] at heq
      exact absurd (heq.2 ▸ (by simp : c ∈ l2 ++ c :: r2)) h1
  | cons x l1 ih =>
    cases l2 with
    | nil =>
      simp only [List.nil_append, List.cons_append, List.cons.injEq] at heq
      exact absurd (heq.2 ▸ (by simp : c ∈ l1 ++ c :: r1)) h2
    | cons y l2 =>
      simp only [List.cons_append, List.cons.injEq] at heq
      obtain ⟨hl, hr⟩ := ih l2 heq.2
      exact ⟨by rw [heq.1, hl], hr⟩

theorem class_id_inj_of_no_slash (p1 n1 p2 n2 : String)
    (h1 : ('/' ∉ n1.data)) (h2 : ('/' ∉ n2.data))
    (heq : p1 ++ "/" ++ n1 = p2 ++ "/" ++ n2) : p1 = p2 ∧ n1 = n2 := by
  have hd := congrArg String.data heq
  simp only [String.data_append, List.append_assoc] at hd
  simp only [List.singleton_append] at hd
  obtain ⟨hp, hn⟩ := append_cons_inj_of_not_mem _ _ _ _ _ h1 h2 hd
  exact ⟨String.ext hp, String.ext hn⟩

/-- C12: the class id does not determine the (package, name) pair.  The pairs
("a/b", "c") and ("a", "b/c") differ and both give the class id "a/b/c";
registering the second after the first adds no declared id (from a fresh factory
"a/b/c" is the only one), and package, name, description and `makeRaw` at
"a/b/c" answer for the second registration.  Conversely, when neither name has a
"/" in it, different (package, name) pairs give different class ids and both
registrations are kept: both ids are declared, each answers with its own package,
name, description and factory function, and from a fresh factory there are two
declared ids. -/
theorem class_id_collision_and_separation {τ σ : Type} (self : PluginlibFactory τ σ)
    (package base_class_type d1 d2 : String) (f1 f2 : σ → Option τ × σ)
    (p1 n1 p2 n2 : String) :
    ((("a/b", "c") : String × String) ≠ ("a", "b/c") ∧
      ("a/b" ++ "/" ++ "c" : String) = "a/b/c" ∧
      ("a" ++ "/" ++ "b/c" : String) = "a/b/c") ∧
    (((self.addBuiltInClass "a/b" "c" d1 f1).addBuiltInClass
          "a" "b/c" d2 f2).getDeclaredClassIds.length
        = (self.addBuiltInClass "a/b" "c" d1 f1).getDeclaredClassIds.length ∧
      (((new package base_class_type : PluginlibFactory τ σ).addBuiltInClass
          "a/b" "c" d1 f1).addBuiltInClass "a" "b/c" d2 f2).getDeclaredClassIds = ["a/b/c"] ∧
      ((self.addBuiltInClass "a/b" "c" d1 f1).addBuiltInClass
          "a" "b/c" d2 f2).getClassPackage "a/b/c" = "a" ∧
      ((self.addBuiltInClass "a/b" "c" d1 f1).addBuiltInClass
          "a" "b/c" d2 f2).getClassName "a/b/c" = "b/c" ∧
      ((self.addBuiltInClass "a/b" "c" d1 f1).addBuiltInClass
          "a" "b/c" d2 f2).getClassDescription "a/b/c" = d2 ∧
      ∀ (error_return : Option String) (w : σ),
        (((self.addBuiltInClass "a/b" "c" d1 f1).addBuiltInClass
            "a" "b/c" d2 f2).makeRaw "a/b/c" error_return w).ret = (f2 w).1 ∧
        (((self.addBuiltInClass "a/b" "c" d1 f1).addBuiltInClass
            "a" "b/c" d2 f2).makeRaw "a/b/c" error_return w).world = (f2 w).2) ∧
    (('/' ∉ n1.data) → ('/' ∉ n2.data) → (p1, n1) ≠ (p2, n2) →
      p1 ++ "/" ++ n1 ≠ p2 ++ "/" ++ n2 ∧
      p1 ++ "/" ++ n1 ∈ ((self.addBuiltInClass p1 n1 d1 f1).addBuiltInClass
          p2 n2 d2 f2).getDeclaredClassIds ∧
      p2 ++ "/" ++ n2 ∈ ((self.addBuiltInClass p1 n1 d1 f1).addBuiltInClass
          p2 n2 d2 f2).getDeclaredClassIds ∧
      ((self.addBuiltInClass p1 n1 d1 f1).addBuiltInClass
          p2 n2 d2 f2).getClassPackage (p1 ++ "/" ++ n1) = p1 ∧
      ((self.addBuiltInClass p1 n1 d1 f1).addBuiltInClass
          p2 n2 d2 f2).getClassName (p1 ++ "/" ++ n1) = n1 ∧
      ((self.addBuiltInClass p1 n1 d1 f1).addBuiltInClass
          p2 n2 d2 f2).getClassDescription (p1 ++ "/" ++ n1) = d1 ∧
      ((self.addBuiltInClass p1 n1 d1 f1).addBuiltInClass
          p2 n2 d2 f2).getClassPackage (p2 ++ "/" ++ n2) = p2 ∧
      ((self.addBuiltInClass p1 n1 d1 f1).addBuiltInClass
          p2 n2 d2 f2).getClassName (p2 ++ "/" ++ n2) = n2 ∧
      ((self.addBuiltInClass p1 n1 d1 f1).addBuiltInClass
          p2 n2 d2 f2).getClassDescription (p2 ++ "/" ++ n2) = d2 ∧
      (∀ (error_return : Option String) (w : σ),
        (((self.addBuiltInClass p1 n1 d1 f1).addBuiltInClass
            p2 n2 d2 f2).makeRaw (p1 ++ "/" ++ n1) error_return w).ret = (f1 w).1 ∧
        (((self.addBuiltInClass p1 n1 d1 f1).addBuiltInClass
            p2 n2 d2 f2).makeRaw (p1 ++ "/" ++ n1) error_return w).world = (f1 w).2) ∧
      (∀ (error_return : Option String) (w : σ),
        (((self.addBuiltInClass p1 n1 d1 f1).addBuiltInClass
            p2 n2 d2 f2).makeRaw (p2 ++ "/" ++ n2) error_return w).ret = (f2 w).1 ∧
        (((self.addBuiltInClass p1 n1 d1 f1).addBuiltInClass
            p2 n2 d2 f2).makeRaw (p2 ++ "/" ++ n2) error_return w).world = (f2 w).2) ∧
      (((new package base_class_type : PluginlibFactory τ σ).addBuiltInClass
          p1 n1 d1 f1).addBuiltInClass p2 n2 d2 f2).getDeclaredClassIds.length = 2) := by
  have e1 : ("a/b" ++ "/" ++ "c" : String) = "a/b/c" := by decide
  have e2 : ("a" ++ "/" ++ "b/c" : String) = "a/b/c" := by decide
  refine ⟨⟨by decide, e1, e2⟩, ⟨?_, ?_, ?_, ?_, ?_, ?_⟩, ?_⟩
  · simp only [getDeclaredClassIds, addBuiltInClass, e1, e2, QHash.assign_assign,
      QHash.keys_assign]
  · simp [getDeclaredClassIds, addBuiltInClass, new, e1, e2, QHash.assign, QHash.keys]
  · simp only [getClassPackage, addBuiltInClass, e1, e2, QHash.find_assign_self]
  · simp only [getClassName, addBuiltInClass, e1, e2, QHash.find_assign_self]
  · simp only [getClassDescription, addBuiltInClass, e1, e2, QHash.find_assign_self]
  · intro error_return w
    simp only [makeRaw, addBuiltInClass, e1, e2, QHash.find_assign_self]
    constructor <;> split <;> rfl
  · intro h1 h2 hpair
    have hne : p1 ++ "/" ++ n1 ≠ p2 ++ "/" ++ n2 := by
      intro heq
      obtain ⟨hp, hn⟩ := class_id_inj_of_no_slash p1 n1 p2 n2 h1 h2 heq
      exact hpair (by rw [hp, hn])
    have hne' : ¬ p2 ++ "/" ++ n2 = p1 ++ "/" ++ n1 := fun h => hne h.symm
    refine ⟨hne, ?_, ?_, ?_, ?_, ?_, ?_, ?_, ?_, ?_, ?_, ?_⟩
    · simp [getDeclaredClassIds, addBuiltInClass, QHash.mem_keys_assign]
    · simp [getDeclaredClassIds, addBuiltInClass, QHash.mem_keys_assign]
    · simp only [getClassPackage, addBuiltInClass, QHash.find_assign_ne _ _ _ _ hne,
        QHash.find_assign_self]
    · simp only [getClassName, addBuiltInClass, QHash.find_assign_ne _ _ _ _ hne,
        QHash.find_assign_self]
    · simp only [getClassDescription, addBuiltInClass, QHash.find_assign_ne _ _ _ _ hne,
        QHash.find_assign_self]
    · simp only [getClassPackage, addBuiltInClass, QHash.find_assign_self]
    · simp only [getClassName, addBuiltInClass, QHash.find_assign_self]
    · simp only [getClassDescription, addBuiltInClass, QHash.find_assign_self]
    · intro error_return w
      simp only [makeRaw, addBuiltInClass, QHash.find_assign_ne _ _ _ _ hne,
        QHash.find_assign_self]
      constructor <;> split <;> rfl
    · intro error_return w
      simp only [makeRaw, addBuiltInClass, QHash.find_assign_self]
      constructor <;> split <;> rfl
    · simp [getDeclaredClassIds, addBuiltInClass, new, QHash.assign, QHash.keys, hne]

/-- Witness of C12: ("rviz", "Grid") and ("rviz", "Null") have no "/" in their
names and are both kept. -/
theorem class_id_collision_and_separation_witness :
    ("rviz" ++ "/" ++ "Grid" : String) ≠ "rviz" ++ "/" ++ "Null" ∧
    ((freshFactory.addBuiltInClass "rviz" "Grid" "a grid" gridFactory).addBuiltInClass
        "rviz" "Null" "nothing" nullFactory).getClassName ("rviz" ++ "/" ++ "Grid")
      = "Grid" ∧
    ((freshFactory.addBuiltInClass "rviz" "Grid" "a grid" gridFactory).addBuiltInClass
        "rviz" "Null" "nothing" nullFactory).getDeclaredClassIds
      = ["rviz/Grid", "rviz/Null"] :=
  ⟨((class_id_collision_and_separation freshFactory "rviz" "rviz::Display"
        "a grid" "nothing" gridFactory nullFactory "rviz" "Grid" "rviz" "Null").2.2
      (by decide) (by decide) (by decide)).1,
   ((class_id_collision_and_separation freshFactory "rviz" "rviz::Display"
        "a grid" "nothing" gridFactory nullFactory "rviz" "Grid" "rviz" "Null").2.2
      (by decide) (by decide) (by decide)).2.2.2.2.1,
   by decide⟩

end rviz
